import Mathlib

/-!
Verification development for the JES4py-tkinter-test repository.

The first half embeds the show/repaint display subsystem of
src/jes4py/show.py: the pipe messages exchanged between the producer
(ShowProcess) and the display subprocess (ShowApp), the listener thread's
receive loop (ShowApp.listen), the render handler (ShowApp.showImage),
and the shutdown handlers (ShowApp.onListenerExit, ShowApp.stopBackground).
The second half embeds the PCM sample accessors of src/Sound.py
(Sound.getSampleValue, Sound.setSampleValue, Sound.setFrame and the
copy-constructing branch of Sound.__init__).

Machine integers are modelled as Nat/Int; bytearrays as List Nat; Python
exceptions as Except/Option results.
-/

/-- A picture snapshot as the producer sends it: show.py accesses
picture.getTitle(), picture.getImage(), picture.getWidth(), picture.getHeight().
The image reference is abstracted as a Nat. -/
structure Frame where
  title : String
  image : Nat
  width : Nat
  height : Nat
deriving DecidableEq

/-- A value travelling over the multiprocessing Pipe: a picture object,
a bytes object, or a str object. -/
inductive PipeMsg where
  | pFrame (f : Frame)
  | pBytes (bs : List Nat)
  | pStr (s : String)
deriving DecidableEq

/-- ShowApp.EXIT_CODE = 'exit' (show.py line 46), the value the listener's
while-condition compares each received message against. -/
def exitCodeMsg : PipeMsg := PipeMsg.pStr "exit"

/-- ShowApp.NOTIFY_EXIT = bytes([0]) (show.py line 47), the value
ShowProcess.exit and ShowApp.__notifyExit actually send. -/
def notifyExitMsg : PipeMsg := PipeMsg.pBytes [0]

/-- Outcome of one pipe.recv() call in the listener thread: a delivered
message, EOFError (peer closed cleanly), BrokenPipeError, or some other
OSError (for example ConnectionResetError). -/
inductive RecvEvent where
  | msg (m : PipeMsg)
  | eofError
  | brokenPipeError
  | otherOSError
deriving DecidableEq

/-- How the listener thread ends up: it generated the ListenerExit event
(teardown initiated), it died from an uncaught exception (no teardown),
or it is still blocked inside pipe.recv(). -/
inductive ListenOutcome where
  | teardownSignaled
  | crashed
  | blockedOnRecv
deriving DecidableEq

/-- The while-loop in ShowApp.listen (show.py lines 93-109) after a first
message has been received. It compares the message against EXIT_CODE; a
non-exit message is enqueued (imageQueue.put_nowait) with one ImageQueued
event generated after it. The next recv is wrapped in try/except whose
clauses are EOFError and BrokenPipeError-or-OSError; the latter catches
only BrokenPipeError (Python evaluates the or-expression to its first
operand), so any other OSError propagates and kills the thread before
the ListenerExit event on line 112 is generated. Returns the enqueued
messages in order and the listener's outcome. -/
def listenLoop : PipeMsg → List RecvEvent → List PipeMsg × ListenOutcome
  | m, [] =>
    if m = exitCodeMsg then ([], ListenOutcome.teardownSignaled)
    else ([m], ListenOutcome.blockedOnRecv)
  | m, e :: rest =>
    if m = exitCodeMsg then ([], ListenOutcome.teardownSignaled)
    else
      match e with
      | RecvEvent.eofError => ([m], ListenOutcome.teardownSignaled)
      | RecvEvent.brokenPipeError => ([m], ListenOutcome.teardownSignaled)
      | RecvEvent.otherOSError => ([m], ListenOutcome.crashed)
      | RecvEvent.msg m2 =>
        let r := listenLoop m2 rest
        (m :: r.1, r.2)

/-- ShowApp.listen (show.py lines 84-115). The first pipe.recv() on line 91
is outside any try block, so a failure there kills the listener thread
without generating ListenerExit. -/
def ShowApp.listen : List RecvEvent → List PipeMsg × ListenOutcome
  | [] => ([], ListenOutcome.blockedOnRecv)
  | RecvEvent.msg m :: rest => listenLoop m rest
  | _ :: _ => ([], ListenOutcome.crashed)

/-- GUI-side state of ShowApp: window title, canvas size, the canvas items
(id paired with the image reference they display), the remembered imageID,
the next canvas item id Tk would allocate, and which item was last lifted. -/
structure AppState where
  title : String
  canvasWidth : Nat
  canvasHeight : Nat
  items : List (Nat × Nat)
  imageID : Option Nat
  nextItemId : Nat
  raised : Option Nat
deriving DecidableEq

/-- State right after ShowApp.__init__ (show.py lines 49-76): empty canvas,
no image item yet. -/
def initialAppState : AppState :=
  { title := "", canvasWidth := 0, canvasHeight := 0, items := [],
    imageID := none, nextItemId := 1, raised := none }

/-- The Python exception relevant to ShowApp.showImage: calling getTitle()
on a queued value that is not a picture raises AttributeError. -/
inductive PyExc where
  | attributeError
deriving DecidableEq

/-- Body of the try block in ShowApp.showImage (show.py lines 121-133):
sets the window title, configures the canvas to the picture's width and
height, then either creates a fresh canvas image item (first frame,
imageID is None) or updates the existing item in place and lifts it.
A non-picture value raises AttributeError at picture.getTitle(). Also
returns the (title, image) pair that was rendered. -/
def showImageBody (st : AppState) (picture : PipeMsg) :
    Except PyExc (AppState × (String × Nat)) :=
  match picture with
  | PipeMsg.pFrame f =>
    let st1 := { st with
      title := f.title
      canvasWidth := f.width
      canvasHeight := f.height }
    match st1.imageID with
    | none =>
      Except.ok ({ st1 with
                   items := st1.items ++ [(st1.nextItemId, f.image)]
                   imageID := some st1.nextItemId
                   nextItemId := st1.nextItemId + 1 },
                 (f.title, f.image))
    | some i =>
      Except.ok ({ st1 with
                   items := st1.items.map (fun p => if p.1 = i then (i, f.image) else p)
                   raised := some i },
                 (f.title, f.image))
  | _ => Except.error PyExc.attributeError

/-- The except clause of ShowApp.showImage (line 134) catches exactly
AttributeError. -/
def caughtByShowImage (e : PyExc) : Bool :=
  e = PyExc.attributeError

/-- ShowApp.showImage (show.py lines 117-136) for one dequeued value:
runs the body; an AttributeError is caught and the value skipped (state
unchanged, nothing rendered); any other exception would propagate. -/
def showImage (st : AppState) (picture : PipeMsg) :
    Except PyExc (AppState × Option (String × Nat)) :=
  match showImageBody st picture with
  | Except.ok (st2, r) => Except.ok (st2, some r)
  | Except.error e =>
    if caughtByShowImage e then Except.ok (st, none) else Except.error e

/-- Draining the FIFO image queue: one showImage call per ImageQueued event,
in queue order, collecting the rendered (title, image) pairs. -/
def processQueue (st : AppState) : List PipeMsg → Except PyExc (AppState × List (String × Nat))
  | [] => Except.ok (st, [])
  | m :: rest =>
    match showImage st m with
    | Except.error e => Except.error e
    | Except.ok (st2, r) =>
      match processQueue st2 rest with
      | Except.error e => Except.error e
      | Except.ok (st3, outs) => Except.ok (st3, r.toList ++ outs)

/-- The (title, image) pair showImage renders for a queued value, if any:
pictures render their title and image, non-pictures are skipped. -/
def renderedOf : PipeMsg → Option (String × Nat)
  | PipeMsg.pFrame f => some (f.title, f.image)
  | _ => none

/-- The sequence of (title, image) pairs rendered while draining a queue,
or none if an uncaught exception escaped the render loop. -/
def renderedResult (st : AppState) (q : List PipeMsg) : Option (List (String × Nat)) :=
  match processQueue st q with
  | Except.ok (_, outs) => some outs
  | Except.error _ => none

/-- Whole display-process pipeline: the listener drains the pipe into the
FIFO queue, the event-loop thread renders the queue in order; the result
is the rendered (title, image) sequence. -/
def displayRendered (st : AppState) (evs : List RecvEvent) : Option (List (String × Nat)) :=
  renderedResult st (ShowApp.listen evs).1

/-- Channel error the spec's wire protocol names for sends on a closed
channel. -/
inductive ChannelError where
  | channelClosed
deriving DecidableEq

/-- One end of the multiprocessing Pipe: the messages sent so far and
whether this connection has been closed. -/
structure Channel where
  msgs : List PipeMsg
  closed : Bool
deriving DecidableEq

/-- Connection.send: fails if the connection is closed, otherwise appends
the message. No statement in show.py ever closes the pipe: the
self.pipe.close() in ShowApp.__notifyExit (line 154) is commented out. -/
def Channel.send (ch : Channel) (m : PipeMsg) : Except ChannelError Channel :=
  if ch.closed then Except.error ChannelError.channelClosed
  else Except.ok { ch with msgs := ch.msgs ++ [m] }

namespace ShowProcess

/-- ShowProcess.exit (show.py lines 34-42) acting on the producer's pipe
end: its whole body is the single statement
self.pipe.send(ShowApp.NOTIFY_EXIT). -/
def exit (ch : Channel) : Except ChannelError Channel :=
  ch.send notifyExitMsg

end ShowProcess

/-- The kinds of channel/process operations a producer-side call could
perform: sending a message, receiving, polling, or waiting on the
subprocess (with an optional timeout in seconds). -/
inductive ProducerOp where
  | sendMsg (m : PipeMsg)
  | recvMsg
  | pollPipe
  | waitProcess (timeoutSeconds : Option Nat)
deriving DecidableEq

/-- Operation trace of ShowProcess.exit (show.py lines 34-42): exactly one
pipe send of NOTIFY_EXIT, nothing else. -/
def exitOpsTrace : List ProducerOp := [ProducerOp.sendMsg notifyExitMsg]

/-- Modelled from the spec for comparison (requestExit "blocks until the
subprocess acknowledges ... or a timeout elapses"): a trace awaits an
acknowledgment iff it contains some waiting step, that is a receive, a
poll, or a process-wait. -/
def awaitsAcknowledgment (ops : List ProducerOp) : Bool :=
  ops.any fun op =>
    match op with
    | ProducerOp.sendMsg _ => false
    | _ => true

/-- Steps taken by the shutdown handlers of ShowApp. -/
inductive ShutdownOp where
  | logCall
  | destroyRoot
  | quitRoot
  | delAttr (name : String)
  | joinListener (timeoutSeconds : Nat)
  | raiseRuntimeError
deriving DecidableEq

/-- ShowApp.onListenerExit (show.py lines 178-199), the handler the GUI
thread runs when the listener generates ListenerExit: logs, destroys and
quits the root, deletes attributes (including the listenerThread
reference); every join-related statement in it is commented out. -/
def onListenerExitOps : List ShutdownOp :=
  [ShutdownOp.logCall, ShutdownOp.destroyRoot, ShutdownOp.quitRoot,
   ShutdownOp.delAttr "root", ShutdownOp.delAttr "canvas", ShutdownOp.logCall,
   ShutdownOp.delAttr "listenerThread", ShutdownOp.logCall]

/-- ShowApp.stopBackground (show.py lines 156-166), parameterised by whether
the listener thread is still alive after the join: logs, joins the
listener with timeout 1 second, and raises RuntimeError if it is still
alive, otherwise logs. -/
def stopBackgroundOps (aliveAfterJoin : Bool) : List ShutdownOp :=
  [ShutdownOp.logCall, ShutdownOp.logCall, ShutdownOp.joinListener 1] ++
    (if aliveAfterJoin then [ShutdownOp.raiseRuntimeError] else [ShutdownOp.logCall])

/-- Recognises the join step among shutdown operations. -/
def ShutdownOp.isJoin : ShutdownOp → Bool
  | ShutdownOp.joinListener _ => true
  | _ => false

/-- Callbacks ShowApp.__init__ registers (show.py lines 57-61): the window
close protocol and the two custom events. -/
def registeredEventHandlers : List String :=
  ["onWindowClosed", "onListenerExit", "showImage"]

/-- The atexit handlers registered anywhere in show.py: none (the atexit
module is imported on line 3 but never used). -/
def registeredAtexitHandlers : List String := []

/-! Embedding of src/Sound.py sample accessors. Bytes are Nats below 256,
a bytearray is a List Nat. -/

/-- Little-endian base-256 digits of a natural number, exactly w bytes. -/
def natToBytesLE : Nat → Nat → List Nat
  | 0, _ => []
  | w + 1, u => u % 256 :: natToBytesLE w (u / 256)

/-- Value of a little-endian byte list as a natural number. -/
def natFromBytesLE : List Nat → Nat
  | [] => 0
  | b :: bs => b + 256 * natFromBytesLE bs

/-- Python int.to_bytes(w, byteorder='little', signed=True): two's
complement little-endian encoding; none models the OverflowError raised
for an out-of-range value. -/
def intToBytesLE (w : Nat) (v : Int) : Option (List Nat) :=
  if -((256 : Int) ^ w / 2) ≤ v ∧ v < (256 : Int) ^ w - (256 : Int) ^ w / 2 then
    some (natToBytesLE w (v % (256 : Int) ^ w).toNat)
  else none

/-- Python int.from_bytes(bs, byteorder='little', signed=True). -/
def intFromBytesLE (bs : List Nat) : Int :=
  if 2 * (natFromBytesLE bs : Int) ≥ (256 : Int) ^ bs.length then
    (natFromBytesLE bs : Int) - (256 : Int) ^ bs.length
  else (natFromBytesLE bs : Int)

/-- Python slice l[n:m] (for n ≤ m; out-of-range indices clip). -/
def sliceList (l : List Nat) (n m : Nat) : List Nat :=
  (l.drop n).take (m - n)

/-- Python slice assignment l[n:m] = repl (for n ≤ m ≤ len(l)). -/
def spliceList (l : List Nat) (n m : Nat) (repl : List Nat) : List Nat :=
  l.take n ++ repl ++ l.drop m

/-- The fields of a Sound object (src/Sound.py): filename, frame count,
channel count, sample width in bytes, sample rate, and the byte buffer. -/
structure Sound where
  filename : String
  numFrames : Nat
  numChannels : Nat
  sampleWidth : Nat
  sampleRate : Nat
  buffer : List Nat
deriving DecidableEq

/-- Sound.getSampleValue (Sound.py lines 269-288): reads sampleWidth bytes
at offset frameNum * sampleWidth * numChannels as a signed little-endian
integer. -/
def Sound.getSampleValue (s : Sound) (frameNum : Nat) : Int :=
  let n := frameNum * s.sampleWidth * s.numChannels
  let m := n + s.sampleWidth
  intFromBytesLE (sliceList s.buffer n m)

/-- Sound.setSampleValue (Sound.py lines 382-399): writes
value.to_bytes(sampleWidth, 'little', signed=True) into
buffer[n : n + sampleWidth] at the same offset; none models the uncaught
OverflowError for an unrepresentable value. -/
def Sound.setSampleValue (s : Sound) (frameNum : Nat) (value : Int) : Option Sound :=
  let n := frameNum * s.sampleWidth * s.numChannels
  let m := n + s.sampleWidth
  (intToBytesLE s.sampleWidth value).map fun bs =>
    { s with buffer := spliceList s.buffer n m bs }

/-- Heap of bytearray objects, indexed by allocation order; models Python
object identity for buffers. -/
abbrev Heap := List (List Nat)

/-- Contents of the bytearray with the given id (empty if the id is
dangling). -/
def heapGet : Heap → Nat → List Nat
  | [], _ => []
  | b :: _, 0 => b
  | _ :: h, n + 1 => heapGet h n

/-- Replace the contents of the bytearray with the given id. -/
def heapSet : Heap → Nat → List Nat → Heap
  | [], _, _ => []
  | _ :: h, 0, b => b :: h
  | c :: h, n + 1, b => c :: heapSet h n b

/-- A Sound whose buffer field is a reference into the heap. -/
structure SoundObj where
  filename : String
  numFrames : Nat
  numChannels : Nat
  sampleWidth : Nat
  sampleRate : Nat
  bufId : Nat
deriving DecidableEq

/-- The Sound(sound) branch of Sound.__init__ (Sound.py lines 67-74):
copies filename, numFrames, numChannels, sampleWidth and sampleRate, and
sets self.buffer = sound.buffer.copy(), a freshly allocated bytearray
holding the same bytes. -/
def soundCopyInit (h : Heap) (s : SoundObj) : Heap × SoundObj :=
  (h ++ [heapGet h s.bufId],
   { filename := s.filename, numFrames := s.numFrames,
     numChannels := s.numChannels, sampleWidth := s.sampleWidth,
     sampleRate := s.sampleRate, bufId := h.length })

/-- Sound.setSampleValue acting on the heap: mutates the bytearray the
sound's buffer field references. -/
def setSampleValueH (h : Heap) (s : SoundObj) (frameNum : Nat) (value : Int) :
    Option Heap :=
  let n := frameNum * s.sampleWidth * s.numChannels
  let m := n + s.sampleWidth
  (intToBytesLE s.sampleWidth value).map fun bs =>
    heapSet h s.bufId (spliceList (heapGet h s.bufId) n m bs)

/-- Byte-by-byte assignment buffer[j + i] = frame[i]; none models the
IndexError raised when an index falls outside the bytearray. -/
def writeBytesAt : List Nat → Nat → List Nat → Option (List Nat)
  | l, _, [] => some l
  | l, j, b :: rest =>
    if j < l.length then writeBytesAt (l.set j b) (j + 1) rest else none

/-- Sound.setFrame (Sound.py lines 350-365) acting on the heap: when
frameNum ≥ numFrames it only prints a message; otherwise it assigns
buffer[frameNum * sampleWidth + i] = frame[i] for i in range(sampleWidth);
none models an uncaught IndexError (buffer index out of range or frame
shorter than sampleWidth). -/
def setFrameH (h : Heap) (s : SoundObj) (frameNum : Nat) (frame : List Nat) :
    Option Heap :=
  if s.numFrames ≤ frameNum then some h
  else if frame.length < s.sampleWidth then none
  else
    (writeBytesAt (heapGet h s.bufId) (frameNum * s.sampleWidth)
        (frame.take s.sampleWidth)).map
      (heapSet h s.bufId)

/-- The state showImage produces for a picture when imageID is None:
title and canvas size follow the picture and a fresh canvas image item is
created and remembered. -/
def renderCreateState (st : AppState) (f : Frame) : AppState :=
  { st with
    title := f.title
    canvasWidth := f.width
    canvasHeight := f.height
    items := st.items ++ [(st.nextItemId, f.image)]
    imageID := some st.nextItemId
    nextItemId := st.nextItemId + 1 }

/-- The state showImage produces for a picture when imageID is already
some i: title and canvas size follow the picture, the existing item's
image is replaced in place and the item is lifted. -/
def renderUpdateState (st : AppState) (f : Frame) (i : Nat) : AppState :=
  { st with
    title := f.title
    canvasWidth := f.width
    canvasHeight := f.height
    items := st.items.map (fun p => if p.1 = i then (i, f.image) else p)
    raised := some i }

/-- Statement of claim C7 for one rendered frame: title and canvas size
follow the frame; a first frame creates a fresh canvas item and records
its id; a later frame keeps the same item identity, creates no new item,
updates the item's image in place and lifts it. -/
def rendersFrameSpec (st : AppState) (f : Frame) : Prop :=
  ∃ st2,
    showImage st (PipeMsg.pFrame f) = Except.ok (st2, some (f.title, f.image)) ∧
    st2.title = f.title ∧ st2.canvasWidth = f.width ∧ st2.canvasHeight = f.height ∧
    (st.imageID = none →
      st2.imageID = some st.nextItemId ∧
      st2.items = st.items ++ [(st.nextItemId, f.image)]) ∧
    (∀ i, st.imageID = some i →
      st2.imageID = some i ∧
      st2.nextItemId = st.nextItemId ∧
      st2.items = st.items.map (fun p => if p.1 = i then (i, f.image) else p) ∧
      st2.raised = some i)

/-- Statement of claim C9 at one input: the write succeeds, reading the
same frame back returns the written value, and the buffer length is
unchanged. -/
def setGetRoundtrip (s : Sound) (f : Nat) (v : Int) : Prop :=
  ∃ s2, s.setSampleValue f v = some s2 ∧ s2.getSampleValue f = v ∧
    s2.buffer.length = s.buffer.length

/-- Statement of claim C10 at one heap and sound: the copy shares every
scalar field and the initial buffer bytes, but references a distinct
bytearray, so mutating either sound's buffer (by setSampleValue or
setFrame) leaves the other sound's bytes untouched. -/
def copyIndependence (h : Heap) (s : SoundObj) : Prop :=
  (soundCopyInit h s).2.filename = s.filename ∧
  (soundCopyInit h s).2.numFrames = s.numFrames ∧
  (soundCopyInit h s).2.numChannels = s.numChannels ∧
  (soundCopyInit h s).2.sampleWidth = s.sampleWidth ∧
  (soundCopyInit h s).2.sampleRate = s.sampleRate ∧
  (soundCopyInit h s).2.bufId ≠ s.bufId ∧
  heapGet (soundCopyInit h s).1 (soundCopyInit h s).2.bufId = heapGet h s.bufId ∧
  heapGet (soundCopyInit h s).1 s.bufId = heapGet h s.bufId ∧
  (∀ f v h2, setSampleValueH (soundCopyInit h s).1 (soundCopyInit h s).2 f v = some h2 →
    heapGet h2 s.bufId = heapGet (soundCopyInit h s).1 s.bufId) ∧
  (∀ f fr h2, setFrameH (soundCopyInit h s).1 (soundCopyInit h s).2 f fr = some h2 →
    heapGet h2 s.bufId = heapGet (soundCopyInit h s).1 s.bufId) ∧
  (∀ f v h2, setSampleValueH (soundCopyInit h s).1 s f v = some h2 →
    heapGet h2 (soundCopyInit h s).2.bufId = heapGet (soundCopyInit h s).1 (soundCopyInit h s).2.bufId)

/-- A concrete picture frame used as a test input. -/
def sampleFrame : Frame := { title := "pic", image := 3, width := 4, height := 5 }

/-- A concrete picture frame sent after the exit token in counterexamples. -/
def afterExitFrame : Frame := { title := "after", image := 9, width := 2, height := 2 }

/-- A concrete two-frame mono 16-bit sound with a zeroed buffer. -/
def witnessSound : Sound :=
  { filename := "", numFrames := 2, numChannels := 1, sampleWidth := 2,
    sampleRate := 22050, buffer := [0, 0, 0, 0] }

/-- A concrete one-buffer heap and a sound referencing it. -/
def witnessHeap : Heap := [[1, 2, 3, 4]]

/-- The sound whose buffer is the single bytearray of witnessHeap. -/
def witnessSoundObj : SoundObj :=
  { filename := "w", numFrames := 2, numChannels := 1, sampleWidth := 2,
    sampleRate := 22050, bufId := 0 }

/-! Helper lemmas about the listener and render loop. -/

theorem listenLoop_frames (f : Frame) (frames : List Frame) :
    listenLoop (PipeMsg.pFrame f)
        (frames.map (fun g => RecvEvent.msg (PipeMsg.pFrame g)) ++ [RecvEvent.eofError])
      = (PipeMsg.pFrame f :: frames.map PipeMsg.pFrame, ListenOutcome.teardownSignaled) := by
  induction frames generalizing f with
  | nil => simp [listenLoop, exitCodeMsg]
  | cons g rest ih => simp [listenLoop, exitCodeMsg, ih]

theorem listen_frames (frames : List Frame) :
    (ShowApp.listen
        (frames.map (fun g => RecvEvent.msg (PipeMsg.pFrame g)) ++ [RecvEvent.eofError])).1
      = frames.map PipeMsg.pFrame := by
  cases frames with
  | nil => rfl
  | cons f rest => simp [ShowApp.listen, listenLoop_frames]

theorem showImage_frame_none (st : AppState) (f : Frame) (h : st.imageID = none) :
    showImage st (PipeMsg.pFrame f)
      = Except.ok (renderCreateState st f, some (f.title, f.image)) := by
  simp [showImage, showImageBody, renderCreateState, h]

theorem showImage_frame_some (st : AppState) (f : Frame) (i : Nat) (h : st.imageID = some i) :
    showImage st (PipeMsg.pFrame f)
      = Except.ok (renderUpdateState st f i, some (f.title, f.image)) := by
  simp [showImage, showImageBody, renderUpdateState, h]

theorem showImage_frame (st : AppState) (f : Frame) :
    ∃ st2, showImage st (PipeMsg.pFrame f) = Except.ok (st2, some (f.title, f.image)) := by
  cases h : st.imageID with
  | none => exact ⟨renderCreateState st f, showImage_frame_none st f h⟩
  | some i => exact ⟨renderUpdateState st f i, showImage_frame_some st f i h⟩

theorem showImage_nonframe (st : AppState) (m : PipeMsg) (hm : renderedOf m = none) :
    showImage st m = Except.ok (st, none) := by
  cases m with
  | pFrame f => simp [renderedOf] at hm
  | pBytes bs => rfl
  | pStr s => rfl

theorem processQueue_renders (q : List PipeMsg) (st : AppState) :
    ∃ stF, processQueue st q = Except.ok (stF, q.filterMap renderedOf) := by
  induction q generalizing st with
  | nil => exact ⟨st, rfl⟩
  | cons m rest ih =>
    cases hm : renderedOf m with
    | some r =>
      cases m with
      | pFrame f =>
        obtain ⟨st2, h2⟩ := showImage_frame st f
        obtain ⟨stF, hF⟩ := ih st2
        refine ⟨stF, ?_⟩
        simp [processQueue, h2, hF, renderedOf]
      | pBytes bs => simp [renderedOf] at hm
      | pStr s => simp [renderedOf] at hm
    | none =>
      obtain ⟨stF, hF⟩ := ih st
      refine ⟨stF, ?_⟩
      simp [processQueue, showImage_nonframe st m hm, hF, hm]

theorem renderedResult_eq (st : AppState) (q : List PipeMsg) :
    renderedResult st q = some (q.filterMap renderedOf) := by
  obtain ⟨stF, h⟩ := processQueue_renders q st
  simp [renderedResult, h]

theorem filterMap_renderedOf_frames (frames : List Frame) :
    (frames.map PipeMsg.pFrame).filterMap renderedOf
      = frames.map fun f => (f.title, f.image) := by
  induction frames with
  | nil => rfl
  | cons f rest ih => simp [renderedOf, ih]

/-- C1: for every sequence of frames sent by the producer over the pipe,
the display process renders exactly those frames, each one individually,
in exactly the order sent: the rendered (title, image) sequence equals
the sent sequence, with no reordering, dropping, or coalescing. -/
theorem frames_rendered_in_fifo_order (frames : List Frame) (st : AppState) :
    displayRendered st
        (frames.map (fun g => RecvEvent.msg (PipeMsg.pFrame g)) ++ [RecvEvent.eofError])
      = some (frames.map fun f => (f.title, f.image)) := by
  unfold displayRendered
  rw [listen_frames, renderedResult_eq, filterMap_renderedOf_frames]

/-- C2: the exit-token handling is broken in show.py. ShowProcess.exit
sends NOTIFY_EXIT = bytes([0]) while the listener's loop condition
compares against EXIT_CODE = 'exit', so on receiving the producer's exit
token the listener does not stop: it enqueues the token to the render
queue as if it were a frame and goes back to recv; the queued token is
then dequeued by showImage and skipped via AttributeError. -/
theorem exit_token_enqueued_as_frame :
    ShowApp.listen [RecvEvent.msg notifyExitMsg] = ([notifyExitMsg], ListenOutcome.blockedOnRecv) ∧
    notifyExitMsg ≠ exitCodeMsg ∧
    showImage initialAppState notifyExitMsg = Except.ok (initialAppState, none) := by
  refine ⟨by decide, by decide, rfl⟩

/-- C5: the listener's error handling only partially tears down. After a
first message, a recv ending in EOFError or BrokenPipeError does break
the loop and generate ListenerExit, but the clause
(except BrokenPipeError or OSError) catches only BrokenPipeError, so any
other OSError kills the listener thread with no teardown; likewise the
first recv sits outside every try block, so even a clean EOF there
crashes the listener without teardown. -/
theorem listener_crashes_without_teardown :
    ShowApp.listen [RecvEvent.msg (PipeMsg.pFrame sampleFrame), RecvEvent.otherOSError]
      = ([PipeMsg.pFrame sampleFrame], ListenOutcome.crashed) ∧
    ShowApp.listen [RecvEvent.eofError] = ([], ListenOutcome.crashed) ∧
    ShowApp.listen [RecvEvent.msg (PipeMsg.pFrame sampleFrame), RecvEvent.eofError]
      = ([PipeMsg.pFrame sampleFrame], ListenOutcome.teardownSignaled) ∧
    ShowApp.listen [RecvEvent.msg (PipeMsg.pFrame sampleFrame), RecvEvent.brokenPipeError]
      = ([PipeMsg.pFrame sampleFrame], ListenOutcome.teardownSignaled) := by
  refine ⟨by decide, by decide, by decide, by decide⟩

/-- C3 counterexample: the claim says the producer's exit-request blocks
until the subprocess acknowledges or a bounded timeout elapses (then
reports SubprocessUnresponsive). ShowProcess.exit's operation trace
contains no receive, poll, or process-wait at all, so it awaits no
acknowledgment and has no timeout to report. -/
theorem exit_awaits_no_acknowledgment :
    awaitsAcknowledgment exitOpsTrace = false := by decide

/-- C3 amended: ShowProcess.exit performs exactly one operation, a pipe
send of the NOTIFY_EXIT token, and returns; it never waits for an
acknowledgment and has no timeout, so SubprocessUnresponsive is never
reported. -/
theorem exit_sends_token_and_returns :
    exitOpsTrace.length = 1 ∧
    ProducerOp.sendMsg notifyExitMsg ∈ exitOpsTrace ∧
    awaitsAcknowledgment exitOpsTrace = false := by decide

/-- C4 counterexample: sending the exit token does not close the channel.
Starting from the open pipe, ShowProcess.exit succeeds, a subsequent
FRAME send also succeeds (it does not fail with ChannelClosed), and the
frame sent after the exit token is delivered and rendered by the display
process. -/
theorem frame_after_exit_send_ok_and_rendered :
    ShowProcess.exit { msgs := [], closed := false }
      = Except.ok { msgs := [notifyExitMsg], closed := false } ∧
    Channel.send { msgs := [notifyExitMsg], closed := false } (PipeMsg.pFrame afterExitFrame)
      = Except.ok { msgs := [notifyExitMsg, PipeMsg.pFrame afterExitFrame], closed := false } ∧
    Channel.send { msgs := [notifyExitMsg], closed := false } (PipeMsg.pFrame afterExitFrame)
      ≠ Except.error ChannelError.channelClosed ∧
    displayRendered initialAppState
        ([notifyExitMsg, PipeMsg.pFrame afterExitFrame].map RecvEvent.msg ++ [RecvEvent.eofError])
      = some [(afterExitFrame.title, afterExitFrame.image)] := by
  refine ⟨rfl, rfl, ?_, rfl⟩
  intro hcontra
  simp [Channel.send] at hcontra

/-- C4 amended: after an EXIT_SIGNAL has been sent on a channel the
channel remains open: a subsequent FRAME send on the same channel
succeeds (no ChannelClosed), the frame is appended to the channel after
the exit token, and the display process still delivers and renders it,
because the listener does not stop on the producer's exit token. -/
theorem channel_stays_open_after_exit (ch : Channel) (f : Frame) (h : ch.closed = false) :
    ShowProcess.exit ch
      = Except.ok { msgs := ch.msgs ++ [notifyExitMsg], closed := false } ∧
    Channel.send { msgs := ch.msgs ++ [notifyExitMsg], closed := false } (PipeMsg.pFrame f)
      = Except.ok { msgs := ch.msgs ++ [notifyExitMsg] ++ [PipeMsg.pFrame f], closed := false } ∧
    displayRendered initialAppState
        [RecvEvent.msg notifyExitMsg, RecvEvent.msg (PipeMsg.pFrame f), RecvEvent.eofError]
      = some [(f.title, f.image)] := by
  cases ch with
  | mk msgs closed =>
    have hc : closed = false := h
    subst hc
    exact ⟨rfl, rfl, rfl⟩

/-- Witness for the C4 amended theorem at the fresh open pipe and a
concrete frame. -/
theorem channel_stays_open_after_exit_witness :
    ShowProcess.exit { msgs := [], closed := false }
      = Except.ok { msgs := [notifyExitMsg], closed := false } ∧
    Channel.send { msgs := [notifyExitMsg], closed := false } (PipeMsg.pFrame afterExitFrame)
      = Except.ok { msgs := [notifyExitMsg, PipeMsg.pFrame afterExitFrame], closed := false } ∧
    displayRendered initialAppState
        [RecvEvent.msg notifyExitMsg, RecvEvent.msg (PipeMsg.pFrame afterExitFrame),
         RecvEvent.eofError]
      = some [(afterExitFrame.title, afterExitFrame.image)] :=
  channel_stays_open_after_exit { msgs := [], closed := false } afterExitFrame rfl

/-- C6: no shutdown path of the display process joins the listener
thread. The handler actually run on shutdown, onListenerExit, contains
no join; stopBackground does hold the join-with-1-second-timeout logic
and raises RuntimeError when the join times out, but it is registered
neither as an event handler nor with atexit, so it runs on no shutdown
path. -/
theorem shutdown_paths_never_join_listener :
    onListenerExitOps.any ShutdownOp.isJoin = false ∧
    "stopBackground" ∉ registeredEventHandlers ∧
    registeredAtexitHandlers = [] ∧
    (stopBackgroundOps true).any ShutdownOp.isJoin = true ∧
    ShutdownOp.raiseRuntimeError ∈ stopBackgroundOps true ∧
    ShutdownOp.raiseRuntimeError ∉ stopBackgroundOps false := by decide

/-- C7: for every frame rendered, the window title and canvas size are
set from the frame; the first frame (imageID None) creates a fresh
canvas image item and records its id; every later frame keeps the same
item identity, allocates no new item, updates the item's image in place
and lifts it above any prior overlay. -/
theorem render_frame_behavior (st : AppState) (f : Frame) : rendersFrameSpec st f := by
  unfold rendersFrameSpec
  cases h : st.imageID with
  | none =>
    refine ⟨renderCreateState st f, showImage_frame_none st f h, rfl, rfl, rfl,
            fun _ => ⟨rfl, rfl⟩, ?_⟩
    intro i hi
    exact Option.noConfusion hi
  | some i =>
    refine ⟨renderUpdateState st f i, showImage_frame_some st f i h, rfl, rfl, rfl, ?_, ?_⟩
    · intro hnone
      exact Option.noConfusion hnone
    · intro j hj
      obtain rfl : i = j := Option.some.inj hj
      exact ⟨h, rfl, rfl, rfl⟩

/-- Witness for C7 at the freshly initialised app state and a concrete
frame. -/
theorem render_frame_behavior_witness : rendersFrameSpec initialAppState sampleFrame :=
  render_frame_behavior initialAppState sampleFrame

/-- C8: a malformed payload (one that fails to decode as a picture) is
dropped and the render loop continues: draining any queue never escapes
with an uncaught exception and renders exactly the valid frames, in
order; each malformed payload individually leaves the state unchanged
and renders nothing. -/
theorem malformed_payloads_skipped (st : AppState) (q : List PipeMsg) :
    renderedResult st q = some (q.filterMap renderedOf) ∧
    (∀ m, renderedOf m = none → showImage st m = Except.ok (st, none)) :=
  ⟨renderedResult_eq st q, fun m hm => showImage_nonframe st m hm⟩

/-- Witness for C8: a queue holding one malformed payload (the stray exit
token) followed by a valid frame renders exactly the valid frame. -/
theorem malformed_payloads_skipped_witness :
    renderedResult initialAppState [notifyExitMsg, PipeMsg.pFrame sampleFrame]
      = some [(sampleFrame.title, sampleFrame.image)] ∧
    showImage initialAppState notifyExitMsg = Except.ok (initialAppState, none) := by
  have h := malformed_payloads_skipped initialAppState [notifyExitMsg, PipeMsg.pFrame sampleFrame]
  refine ⟨?_, h.2 notifyExitMsg rfl⟩
  rw [h.1]
  rfl

/-! Helper lemmas for the byte encoding and the buffer heap. -/

theorem natToBytesLE_length (w u : Nat) : (natToBytesLE w u).length = w := by
  induction w generalizing u with
  | zero => rfl
  | succ w2 ih => simp [natToBytesLE, ih]

theorem natFromBytesLE_natToBytesLE (w u : Nat) (h : u < 256 ^ w) :
    natFromBytesLE (natToBytesLE w u) = u := by
  induction w generalizing u with
  | zero =>
    have h1 : u < 1 := by simpa using h
    have h0 : u = 0 := by omega
    simp [natToBytesLE, natFromBytesLE, h0]
  | succ w2 ih =>
    have h3 : u < 256 * 256 ^ w2 := by
      rw [pow_succ] at h
      omega
    have h2 : u / 256 < 256 ^ w2 := Nat.div_lt_of_lt_mul h3
    simp only [natToBytesLE, natFromBytesLE, ih _ h2]
    omega

theorem signed_decode_encode (B u v : Int)
    (hlo : -(B / 2) ≤ v) (hhi : v < B - B / 2) (huB : u = v % B) :
    (if 2 * u ≥ B then u - B else u) = v := by
  by_cases hv : 0 ≤ v
  · have hveq : v % B = v := Int.emod_eq_of_lt hv (by omega)
    rw [huB, hveq]
    split <;> omega
  · have h1 : (v + B) % B = v % B := by
      have h2 : v + B = v + B * 1 := by ring
      rw [h2, Int.add_mul_emod_self_left]
    have h3 : (v + B) % B = v + B := Int.emod_eq_of_lt (by omega) (by omega)
    have hveq : v % B = v + B := by rw [← h1, h3]
    rw [huB, hveq]
    split <;> omega

theorem intFromBytesLE_intToBytesLE (w : Nat) (v : Int) (bs : List Nat)
    (h : intToBytesLE w v = some bs) : intFromBytesLE bs = v := by
  unfold intToBytesLE at h
  by_cases hr : -((256 : Int) ^ w / 2) ≤ v ∧ v < (256 : Int) ^ w - (256 : Int) ^ w / 2
  · rw [if_pos hr] at h
    obtain ⟨hlo, hhi⟩ := hr
    have hB : (0 : Int) < (256 : Int) ^ w := pow_pos (by norm_num) w
    have hbs : bs = natToBytesLE w (v % (256 : Int) ^ w).toNat := (Option.some.inj h).symm
    subst hbs
    have hnn : (0 : Int) ≤ v % (256 : Int) ^ w := Int.emod_nonneg v (ne_of_gt hB)
    have hlt : v % (256 : Int) ^ w < (256 : Int) ^ w := Int.emod_lt_of_pos v hB
    have hcast : ((v % (256 : Int) ^ w).toNat : Int) = v % (256 : Int) ^ w :=
      Int.toNat_of_nonneg hnn
    have hltc : ((v % (256 : Int) ^ w).toNat : Int) < (256 : Int) ^ w := by
      rw [hcast]
      exact hlt
    have huNat : (v % (256 : Int) ^ w).toNat < 256 ^ w := by exact_mod_cast hltc
    unfold intFromBytesLE
    rw [natToBytesLE_length, natFromBytesLE_natToBytesLE _ _ huNat, hcast]
    exact signed_decode_encode ((256 : Int) ^ w) (v % (256 : Int) ^ w) v hlo hhi rfl
  · rw [if_neg hr] at h
    exact Option.noConfusion h

theorem sliceList_spliceList (l bs : List Nat) (n w : Nat)
    (hlen : n + w ≤ l.length) (hbs : bs.length = w) :
    sliceList (spliceList l n (n + w) bs) n (n + w) = bs := by
  unfold sliceList spliceList
  have htake : (l.take n).length = n := by
    rw [List.length_take]
    omega
  rw [List.append_assoc, List.drop_left' htake]
  have hw : n + w - n = w := by omega
  rw [hw, List.take_left' hbs]

theorem spliceList_length (l bs : List Nat) (n w : Nat)
    (hlen : n + w ≤ l.length) (hbs : bs.length = w) :
    (spliceList l n (n + w) bs).length = l.length := by
  unfold spliceList
  rw [List.length_append, List.length_append, List.length_take, List.length_drop, hbs]
  omega

theorem heapGet_append_lt (h : Heap) (x : List Nat) (i : Nat) (hi : i < h.length) :
    heapGet (h ++ [x]) i = heapGet h i := by
  induction h generalizing i with
  | nil => simp at hi
  | cons b t ih =>
    cases i with
    | zero => rfl
    | succ j =>
      have hj : j < t.length := by simpa using hi
      exact ih j hj

theorem heapGet_append_self (h : Heap) (x : List Nat) :
    heapGet (h ++ [x]) h.length = x := by
  induction h with
  | nil => rfl
  | cons b t ih => exact ih

theorem heapGet_heapSet_ne (h : Heap) (i j : Nat) (b : List Nat) (hij : i ≠ j) :
    heapGet (heapSet h j b) i = heapGet h i := by
  induction h generalizing i j with
  | nil => rfl
  | cons c t ih =>
    cases j with
    | zero =>
      cases i with
      | zero => exact absurd rfl hij
      | succ k => rfl
    | succ j2 =>
      cases i with
      | zero => rfl
      | succ k => exact ih k j2 (fun he => hij (by rw [he]))

theorem setSampleValueH_other (h : Heap) (s : SoundObj) (i : Nat) (hne : i ≠ s.bufId)
    (f : Nat) (v : Int) (h2 : Heap) (hset : setSampleValueH h s f v = some h2) :
    heapGet h2 i = heapGet h i := by
  unfold setSampleValueH at hset
  cases henc : intToBytesLE s.sampleWidth v with
  | none =>
    rw [henc] at hset
    exact Option.noConfusion hset
  | some bs =>
    rw [henc] at hset
    simp only [Option.map_some'] at hset
    rw [← Option.some.inj hset]
    exact heapGet_heapSet_ne h i s.bufId _ hne

theorem setFrameH_other (h : Heap) (s : SoundObj) (i : Nat) (hne : i ≠ s.bufId)
    (f : Nat) (fr : List Nat) (h2 : Heap) (hset : setFrameH h s f fr = some h2) :
    heapGet h2 i = heapGet h i := by
  unfold setFrameH at hset
  split at hset
  · rw [← Option.some.inj hset]
  · split at hset
    · exact Option.noConfusion hset
    · cases hw : writeBytesAt (heapGet h s.bufId) (f * s.sampleWidth) (fr.take s.sampleWidth) with
      | none =>
        rw [hw] at hset
        exact Option.noConfusion hset
      | some buf =>
        rw [hw] at hset
        simp only [Option.map_some'] at hset
        rw [← Option.some.inj hset]
        exact heapGet_heapSet_ne h i s.bufId buf hne

/-- C9: for a mono sound, writing a representable signed sample value at
an in-bounds frame and reading the same frame back returns the written
value, and the write leaves the buffer length unchanged. -/
theorem sound_set_get_roundtrip (s : Sound) (f : Nat) (v : Int)
    (hmono : s.numChannels = 1)
    (hlen : (f + 1) * s.sampleWidth ≤ s.buffer.length)
    (hlo : -((256 : Int) ^ s.sampleWidth / 2) ≤ v)
    (hhi : v < (256 : Int) ^ s.sampleWidth - (256 : Int) ^ s.sampleWidth / 2) :
    setGetRoundtrip s f v := by
  have henc : intToBytesLE s.sampleWidth v
      = some (natToBytesLE s.sampleWidth (v % (256 : Int) ^ s.sampleWidth).toNat) := by
    unfold intToBytesLE
    rw [if_pos ⟨hlo, hhi⟩]
  set bs := natToBytesLE s.sampleWidth (v % (256 : Int) ^ s.sampleWidth).toNat with hbsdef
  have hbslen : bs.length = s.sampleWidth := by
    rw [hbsdef]
    exact natToBytesLE_length _ _
  have hfw : f * s.sampleWidth + s.sampleWidth ≤ s.buffer.length := by
    have hexp : (f + 1) * s.sampleWidth = f * s.sampleWidth + s.sampleWidth := by ring
    rw [hexp] at hlen
    exact hlen
  have hmn : f * s.sampleWidth * s.numChannels = f * s.sampleWidth := by
    rw [hmono, Nat.mul_one]
  unfold setGetRoundtrip
  refine ⟨{ s with buffer := spliceList s.buffer (f * s.sampleWidth * s.numChannels) (f * s.sampleWidth * s.numChannels + s.sampleWidth) bs }, ?_, ?_, ?_⟩
  · unfold Sound.setSampleValue
    rw [henc]
    rfl
  · show intFromBytesLE (sliceList
      (spliceList s.buffer (f * s.sampleWidth * s.numChannels)
        (f * s.sampleWidth * s.numChannels + s.sampleWidth) bs)
      (f * s.sampleWidth * s.numChannels)
      (f * s.sampleWidth * s.numChannels + s.sampleWidth)) = v
    rw [hmn, sliceList_spliceList s.buffer bs (f * s.sampleWidth) s.sampleWidth hfw hbslen]
    exact intFromBytesLE_intToBytesLE s.sampleWidth v bs henc
  · show (spliceList s.buffer (f * s.sampleWidth * s.numChannels)
      (f * s.sampleWidth * s.numChannels + s.sampleWidth) bs).length = s.buffer.length
    rw [hmn]
    exact spliceList_length s.buffer bs (f * s.sampleWidth) s.sampleWidth hfw hbslen

/-- Witness for C9: on a concrete zeroed mono 16-bit sound, writing -2 at
frame 1 and reading it back returns -2 with the buffer length intact. -/
theorem sound_set_get_roundtrip_witness : setGetRoundtrip witnessSound 1 (-2) :=
  sound_set_get_roundtrip witnessSound 1 (-2) rfl (by decide) (by decide) (by decide)

/-- C10: constructing a Sound from an existing Sound copies the buffer:
the copy starts with the same filename, frame count, channel count,
sample width, sample rate and buffer bytes, but references a distinct
bytearray, so setSampleValue or setFrame applied to either sound leaves
the other sound's bytes byte-for-byte unchanged. -/
theorem sound_copy_buffer_independent (h : Heap) (s : SoundObj) (hval : s.bufId < h.length) :
    copyIndependence h s := by
  have hne : (soundCopyInit h s).2.bufId ≠ s.bufId := by
    show h.length ≠ s.bufId
    omega
  refine ⟨rfl, rfl, rfl, rfl, rfl, hne, ?_, ?_, ?_, ?_, ?_⟩
  · exact heapGet_append_self h (heapGet h s.bufId)
  · exact heapGet_append_lt h (heapGet h s.bufId) s.bufId hval
  · intro f v h2 hset
    exact setSampleValueH_other _ _ s.bufId (Ne.symm hne) f v h2 hset
  · intro f fr h2 hset
    exact setFrameH_other _ _ s.bufId (Ne.symm hne) f fr h2 hset
  · intro f v h2 hset
    exact setSampleValueH_other _ _ (soundCopyInit h s).2.bufId hne f v h2 hset

/-- Witness for C10 at a concrete one-buffer heap and sound. -/
theorem sound_copy_buffer_independent_witness : copyIndependence witnessHeap witnessSoundObj :=
  sound_copy_buffer_independent witnessHeap witnessSoundObj (by decide)
